import Mathlib

/-!
Verification of the midi-app-controller core against its specification.

The development shallowly embeds the Python sources:
  * `midi_app_controller/models/utils.py` (`find_duplicate`, `YamlBaseModel`),
  * `midi_app_controller/models/binds.py` (`ButtonBind`, `KnobBind`, `Binds`),
  * `midi_app_controller/models/controller.py` (`ControllerElement`, `Controller`),
  * `midi_app_controller/controller/connected_controller.py`
    (`ConnectedController.handle_knob_message`, `handle_midi_message`).

Python machine integers are embedded as `Int`, dictionaries as association
lists, fallible code as `Except`.
-/

namespace MidiApp

/-! ## models/utils.py : find_duplicate -/

/-- Embeds the loop of `find_duplicate` from `models/utils.py`: `seen` is the
accumulator set (a Python `set`, embedded as the list of inserted values);
each value is tested for membership before being inserted. -/
def findDuplicateAux {α : Type} [DecidableEq α] (seen : List α) : List α → Option α
  | [] => none
  | v :: rest => if v ∈ seen then some v else findDuplicateAux (v :: seen) rest

/-- Embeds `find_duplicate(values)` from `models/utils.py`: returns the first
value whose second occurrence is met while scanning in input order, `none`
when there is no duplicate. -/
def find_duplicate {α : Type} [DecidableEq α] (values : List α) : Option α :=
  findDuplicateAux [] values

theorem findDuplicateAux_eq_none {α : Type} [DecidableEq α] (l : List α) :
    ∀ seen : List α,
      (findDuplicateAux seen l = none ↔ l.Nodup ∧ ∀ x ∈ l, x ∉ seen) := by
  induction l with
  | nil => intro seen; simp [findDuplicateAux]
  | cons v rest ih =>
    intro seen
    by_cases hv : v ∈ seen
    · rw [findDuplicateAux, if_pos hv]
      constructor
      · intro h; simp at h
      · rintro ⟨_, hni⟩
        exact absurd hv (hni v (List.mem_cons_self v rest))
    · rw [findDuplicateAux, if_neg hv, ih (v :: seen)]
      constructor
      · rintro ⟨hnd, hni⟩
        refine ⟨List.nodup_cons.mpr
          ⟨fun hvr => (hni v hvr) (List.mem_cons_self v seen), hnd⟩, ?_⟩
        intro x hx
        rcases List.mem_cons.mp hx with rfl | hx
        · exact hv
        · exact fun hxs => (hni x hx) (List.mem_cons_of_mem v hxs)
      · rintro ⟨hnd, hni⟩
        obtain ⟨hvr, hndr⟩ := List.nodup_cons.mp hnd
        refine ⟨hndr, fun x hx hxs => ?_⟩
        rcases List.mem_cons.mp hxs with rfl | hxs
        · exact hvr hx
        · exact (hni x (List.mem_cons_of_mem v hx)) hxs

theorem findDuplicateAux_eq_some {α : Type} [DecidableEq α] (l : List α) (v : α) :
    ∀ seen : List α,
      (findDuplicateAux seen l = some v ↔
        ∃ p q, l = p ++ v :: q ∧ p.Nodup ∧ (∀ x ∈ p, x ∉ seen) ∧
          (v ∈ seen ∨ v ∈ p)) := by
  induction l with
  | nil =>
    intro seen
    simp [findDuplicateAux]
  | cons a rest ih =>
    intro seen
    by_cases ha : a ∈ seen
    · rw [findDuplicateAux, if_pos ha]
      constructor
      · intro h
        have hav : a = v := Option.some.inj h
        subst hav
        exact ⟨[], rest, rfl, List.nodup_nil, by simp, Or.inl ha⟩
      · rintro ⟨p, q, heq, hnd, hns, hvp⟩
        cases p with
        | nil =>
          rw [List.nil_append] at heq
          injection heq with h1 h2
          rw [h1]
        | cons b p' =>
          rw [List.cons_append] at heq
          injection heq with h1 h2
          have hb : b ∉ seen := hns b (List.mem_cons_self b p')
          rw [← h1] at hb
          exact absurd ha hb
    · rw [findDuplicateAux, if_neg ha, ih (a :: seen)]
      constructor
      · rintro ⟨p, q, heq, hnd, hns, hvp⟩
        refine ⟨a :: p, q, by rw [List.cons_append, heq], ?_, ?_, ?_⟩
        · exact List.nodup_cons.mpr
            ⟨fun hap => (hns a hap) (List.mem_cons_self a seen), hnd⟩
        · intro x hx
          rcases List.mem_cons.mp hx with rfl | hx
          · exact ha
          · exact fun hxs => (hns x hx) (List.mem_cons_of_mem a hxs)
        · rcases hvp with hvs | hvp
          · rcases List.mem_cons.mp hvs with rfl | hvs
            · exact Or.inr (List.mem_cons_self v p)
            · exact Or.inl hvs
          · exact Or.inr (List.mem_cons_of_mem a hvp)
      · rintro ⟨p, q, heq, hnd, hns, hvp⟩
        cases p with
        | nil =>
          rw [List.nil_append] at heq
          injection heq with h1 h2
          rcases hvp with hvs | hvp
          · rw [← h1] at hvs
            exact absurd hvs ha
          · exact absurd hvp (List.not_mem_nil v)
        | cons b p' =>
          rw [List.cons_append] at heq
          injection heq with h1 h2
          subst h1
          refine ⟨p', q, h2, (List.nodup_cons.mp hnd).2, ?_, ?_⟩
          · intro x hx hxs
            rcases List.mem_cons.mp hxs with rfl | hxs
            · exact (List.nodup_cons.mp hnd).1 hx
            · exact (hns x (List.mem_cons_of_mem a hx)) hxs
          · rcases hvp with hvs | hvp
            · exact Or.inl (List.mem_cons_of_mem a hvs)
            · rcases List.mem_cons.mp hvp with rfl | hvp
              · exact Or.inl (List.mem_cons_self v seen)
              · exact Or.inr hvp

theorem find_duplicate_eq_none_iff {α : Type} [DecidableEq α] (l : List α) :
    find_duplicate l = none ↔ l.Nodup := by
  rw [find_duplicate, findDuplicateAux_eq_none]
  simp

theorem find_duplicate_eq_some_iff {α : Type} [DecidableEq α] (l : List α) (v : α) :
    find_duplicate l = some v ↔ ∃ p q, l = p ++ v :: q ∧ p.Nodup ∧ v ∈ p := by
  rw [find_duplicate, findDuplicateAux_eq_some]
  simp

/-! ## models/binds.py : ButtonBind, KnobBind, Binds -/

/-- Embeds the pydantic model `ButtonBind` from `models/binds.py`. -/
structure ButtonBind where
  button_id : Int
  action_id : String
deriving DecidableEq, Repr

/-- Embeds the pydantic model `KnobBind` from `models/binds.py`. -/
structure KnobBind where
  knob_id : Int
  action_id_increase : Option String
  action_id_decrease : Option String
deriving DecidableEq, Repr

/-- Embeds the pydantic model `Binds` from `models/binds.py` (the raw record;
validation is in `Binds.mk?`). -/
structure Binds where
  name : String
  description : Option String
  app_name : String
  controller_name : String
  button_binds : List ButtonBind
  knob_binds : List KnobBind
deriving DecidableEq, Repr

/-- Constraint `Field(ge=0, le=127)` on `ButtonBind.button_id`. -/
def ButtonBind.id_in_range (b : ButtonBind) : Prop :=
  0 ≤ b.button_id ∧ b.button_id ≤ 127

instance (b : ButtonBind) : Decidable b.id_in_range := by
  unfold ButtonBind.id_in_range; infer_instance

/-- Constraint `Field(ge=0, le=127)` on `KnobBind.knob_id`. -/
def KnobBind.id_in_range (k : KnobBind) : Prop :=
  0 ≤ k.knob_id ∧ k.knob_id ≤ 127

instance (k : KnobBind) : Decidable k.id_in_range := by
  unfold KnobBind.id_in_range; infer_instance

/-- Embeds the `check_duplicate_ids` root validator of `Binds`: the combined
list of all bound button ids followed by all bound knob ids is scanned by
`find_duplicate`. -/
def Binds.check_duplicate_ids (button_binds : List ButtonBind)
    (knob_binds : List KnobBind) : Option Int :=
  find_duplicate
    (button_binds.map ButtonBind.button_id ++ knob_binds.map KnobBind.knob_id)

/-- Embeds construction of a `Binds` pydantic model: the field constraints
(`min_length=1` on `name` and `app_name`, `ge=0, le=127` on every bound id)
and the `check_duplicate_ids` root validator run before the value is built;
any violation raises a validation error, embedded as `Except.error`. -/
def Binds.mk? (name : String) (description : Option String)
    (app_name controller_name : String)
    (button_binds : List ButtonBind) (knob_binds : List KnobBind) :
    Except String Binds :=
  if name.length < 1 then
    .error "name: ensure this value has at least 1 characters"
  else if app_name.length < 1 then
    .error "app_name: ensure this value has at least 1 characters"
  else if ¬ (∀ b ∈ button_binds, b.id_in_range) then
    .error "button_id: ensure this value is in the range 0..127"
  else if ¬ (∀ k ∈ knob_binds, k.id_in_range) then
    .error "knob_id: ensure this value is in the range 0..127"
  else
    match Binds.check_duplicate_ids button_binds knob_binds with
    | some _ => .error "id was bound to multiple actions"
    | none =>
      .ok ⟨name, description, app_name, controller_name, button_binds, knob_binds⟩

/-- Test whether a pydantic construction succeeded. -/
def exceptIsOk {ε α : Type} : Except ε α → Bool
  | .ok _ => true
  | .error _ => false

theorem string_length_eq_zero_iff (s : String) : s.length = 0 ↔ s = "" := by
  cases s with
  | mk data =>
    constructor
    · intro h
      have hd : data = [] := List.length_eq_zero.mp h
      rw [hd]
    · intro h
      rw [h]
      decide

theorem binds_mk?_isOk_iff (name : String) (description : Option String)
    (app_name controller_name : String)
    (button_binds : List ButtonBind) (knob_binds : List KnobBind) :
    exceptIsOk (Binds.mk? name description app_name controller_name
        button_binds knob_binds) = true ↔
      (name ≠ "" ∧ app_name ≠ "" ∧
        (∀ b ∈ button_binds, b.id_in_range) ∧
        (∀ k ∈ knob_binds, k.id_in_range) ∧
        (button_binds.map ButtonBind.button_id ++
          knob_binds.map KnobBind.knob_id).Nodup) := by
  rw [Binds.mk?]
  by_cases h1 : name.length < 1
  · rw [if_pos h1]
    have : name = "" := (string_length_eq_zero_iff name).mp (Nat.lt_one_iff.mp h1)
    simp [exceptIsOk, this]
  · rw [if_neg h1]
    have hn : name ≠ "" := by
      intro h
      exact h1 (Nat.lt_one_iff.mpr ((string_length_eq_zero_iff name).mpr h))
    by_cases h2 : app_name.length < 1
    · rw [if_pos h2]
      have : app_name = "" :=
        (string_length_eq_zero_iff app_name).mp (Nat.lt_one_iff.mp h2)
      simp [exceptIsOk, this]
    · rw [if_neg h2]
      have ha : app_name ≠ "" := by
        intro h
        exact h2 (Nat.lt_one_iff.mpr ((string_length_eq_zero_iff app_name).mpr h))
      by_cases h3 : ∀ b ∈ button_binds, b.id_in_range
      · rw [if_neg (not_not.mpr h3)]
        by_cases h4 : ∀ k ∈ knob_binds, k.id_in_range
        · rw [if_neg (not_not.mpr h4)]
          rcases hfd : Binds.check_duplicate_ids button_binds knob_binds with - | d
          · have hnd := (find_duplicate_eq_none_iff _).mp hfd
            simp [exceptIsOk, hn, ha, h3, h4, hnd]
            exact ⟨h3, h4⟩
          · have hdup : ¬ (button_binds.map ButtonBind.button_id ++
                knob_binds.map KnobBind.knob_id).Nodup := by
              intro hnd
              rw [← find_duplicate_eq_none_iff] at hnd
              rw [Binds.check_duplicate_ids, hnd] at hfd
              exact Option.noConfusion hfd
            simp [exceptIsOk, hdup]
        · rw [if_pos h4]
          simp [exceptIsOk, h4]
      · rw [if_pos h3]
        simp [exceptIsOk, h3]

/-- C5: Binds construction fails exactly when the name is empty, or the
app_name is empty, or some button_id or knob_id is outside [0, 127], or some
id value occurs twice in the combined list of all button_ids and knob_ids
(which also rejects the same id used once as a button_id and once as a
knob_id); when all these conditions are absent, construction succeeds. -/
theorem binds_construction_fails_iff (name : String) (description : Option String)
    (app_name controller_name : String)
    (button_binds : List ButtonBind) (knob_binds : List KnobBind) :
    exceptIsOk (Binds.mk? name description app_name controller_name
        button_binds knob_binds) = true ↔
      ¬ (name = "" ∨ app_name = "" ∨
        (∃ b ∈ button_binds, b.button_id < 0 ∨ 127 < b.button_id) ∨
        (∃ k ∈ knob_binds, k.knob_id < 0 ∨ 127 < k.knob_id) ∨
        (∃ v, 2 ≤ (button_binds.map ButtonBind.button_id ++
          knob_binds.map KnobBind.knob_id).count v)) := by
  rw [binds_mk?_isOk_iff, List.nodup_iff_count_le_one]
  simp only [ButtonBind.id_in_range, KnobBind.id_in_range]
  push_neg
  simp only [Nat.lt_succ_iff]

/-- C6: find_duplicate returns the first value whose second occurrence is
encountered when scanning in input order — the list splits as p ++ v :: q
where the prefix p is duplicate-free and already contains v — and returns
none exactly when the list has no duplicate; the four concrete examples of
the specification hold. -/
theorem find_duplicate_first_seen_policy :
    (∀ l : List Int,
      (find_duplicate l = none ↔ l.Nodup) ∧
      ∀ v : Int,
        (find_duplicate l = some v ↔ ∃ p q, l = p ++ v :: q ∧ p.Nodup ∧ v ∈ p)) ∧
    find_duplicate ([] : List Int) = none ∧
    find_duplicate ([1, 2, 3] : List Int) = none ∧
    find_duplicate ([1, 2, 3, 1, 4] : List Int) = some 1 ∧
    find_duplicate ([1, 2, 1, 2] : List Int) = some 1 := by
  refine ⟨fun l =>
    ⟨find_duplicate_eq_none_iff l, fun v => find_duplicate_eq_some_iff l v⟩,
    ?_, ?_, ?_, ?_⟩ <;> decide

/-- C10: only name and app_name carry the min_length=1 constraint in Binds;
an otherwise valid input whose controller_name is the empty string is
accepted by construction. -/
theorem binds_accepts_empty_controller_name (name : String)
    (description : Option String) (app_name : String)
    (button_binds : List ButtonBind) (knob_binds : List KnobBind)
    (hn : name ≠ "") (ha : app_name ≠ "")
    (hb : ∀ b ∈ button_binds, b.id_in_range)
    (hk : ∀ k ∈ knob_binds, k.id_in_range)
    (hnd : (button_binds.map ButtonBind.button_id ++
      knob_binds.map KnobBind.knob_id).Nodup) :
    exceptIsOk (Binds.mk? name description app_name "" button_binds knob_binds)
      = true :=
  (binds_mk?_isOk_iff name description app_name "" button_binds knob_binds).mpr
    ⟨hn, ha, hb, hk, hnd⟩

/-- Witness for C10 at the TestBinds fixture with an empty controller_name. -/
theorem binds_accepts_empty_controller_name_witness :
    exceptIsOk (Binds.mk? "TestBinds" (some "Test description") "TestApp" ""
      [⟨1, "Action1"⟩] [⟨2, some "incr", some "decr"⟩]) = true :=
  binds_accepts_empty_controller_name "TestBinds" (some "Test description")
    "TestApp" [⟨1, "Action1"⟩] [⟨2, some "incr", some "decr"⟩]
    (by decide) (by decide) (by decide) (by decide) (by decide)

/-! ## models/controller.py : ControllerElement, Controller -/

/-- Embeds the pydantic model `ControllerElement` from `models/controller.py`. -/
structure ControllerElement where
  id : Int
  name : String
deriving DecidableEq, Repr

/-- Embeds the pydantic model `Controller` from `models/controller.py` (the
raw record; validation is in `Controller.mk?`). -/
structure Controller where
  name : String
  button_value_off : Int
  button_value_on : Int
  knob_value_min : Int
  knob_value_max : Int
  buttons : List ControllerElement
  knobs : List ControllerElement
deriving DecidableEq, Repr

/-! ## controller/connected_controller.py -/

/-- Embeds a call delegated to the actions handler (`handle_knob_action` or
`handle_button_action`) with its keyword arguments — the value a dispatch
would produce. No method of `connected_controller.py` completes a dispatch:
the call sites read `self.action_handler`, but the declared pydantic field is
`actions_handler`, so the attribute access raises `AttributeError` first. -/
inductive HandlerCall where
  | knobAction (knob_id old_value new_value : Int)
  | buttonAction (button_id : Int)
deriving DecidableEq, Repr

/-- Embeds the Python exceptions the message handlers can raise. -/
inductive PyError where
  | keyError (key : Int)
  | indexError
  | attributeError (msg : String)
  | typeError (msg : String)
  | valueError (msg : String)
deriving DecidableEq, Repr

/-- Embeds the state of a `ConnectedController` that the message handlers
read: the controller data, the element id lists and the engagement
dictionaries (Python dicts embedded as association lists consulted with
`List.lookup`). -/
structure ConnectedControllerState where
  controller : Controller
  button_ids : List Int
  knob_ids : List Int
  button_engagement : List (Int × Int)
  knob_engagement : List (Int × Int)
deriving DecidableEq, Repr

set_option linter.unusedVariables false in
/-- Embeds `ConnectedController.handle_knob_message(data)`: reads
`id = data[0]` and `velocity = data[1]` (a missing byte raises `IndexError`),
reads `prev_velocity = self.knob_engagement[id]` (a missing key raises
`KeyError`), overwrites `prev_velocity` with `knob_value_min + 1` when
`velocity == knob_value_min` and with `knob_value_max - 1` when
`velocity == knob_value_max`, and then evaluates
`self.action_handler.handle_knob_action(...)`: the declared pydantic field is
`actions_handler` and a pydantic `BaseModel` has no such fallback attribute,
so this access raises `AttributeError` before any call is made. The method
contains no assignment to `knob_engagement` on any path. -/
def handle_knob_message (st : ConnectedControllerState) (data : List Int) :
    Except PyError (HandlerCall × ConnectedControllerState) :=
  match data with
  | id :: velocity :: _ =>
    match st.knob_engagement.lookup id with
    | none => .error (.keyError id)
    | some stored =>
      let prev1 := stored
      let prev2 := if velocity = st.controller.knob_value_min then
          st.controller.knob_value_min + 1
        else prev1
      let prev3 := if velocity = st.controller.knob_value_max then
          st.controller.knob_value_max - 1
        else prev2
      .error (.attributeError
        "ConnectedController object has no attribute action_handler")
  | _ => .error .indexError

deriving instance DecidableEq for Except

/-- Embeds the distinction between a Python int and the Python builtin
function `id`. In `handle_midi_message` the local name `id` is never
assigned, so every occurrence of `id` there denotes the builtin function,
which is unequal to every element id (an int). -/
inductive PyVal where
  | int (n : Int)
  | builtinId
deriving DecidableEq, Repr

/-- Modelled from the spec: `controller/controller_constants.py` (class
`ControllerConstants`) is not among the sources; the spec fixes only that the
button-engaged and button-disengaged command nibbles are fixed protocol
constants, so they are kept as parameters here. -/
structure ControllerConstants where
  BUTTON_ENGAGED_COMMAND : Int
  BUTTON_DISENGAGED_COMMAND : Int
deriving DecidableEq, Repr

set_option linter.unusedVariables false in
/-- Embeds `ConnectedController.handle_midi_message(command, channel, data)`.
Each branch guard tests `id in self.knob_ids` resp. `id in self.button_ids`,
where `id` denotes the Python builtin (it is never assigned in the method);
a taken branch would call a two-argument handler with four arguments, which
is a `TypeError`; the final `else` raises `ValueError`. -/
def handle_midi_message (cc : ControllerConstants)
    (st : ConnectedControllerState) (command channel : Int) (data : List Int) :
    Except PyError (Option HandlerCall × ConnectedControllerState) :=
  if PyVal.builtinId ∈ st.knob_ids.map PyVal.int then
    .error (.typeError
      "handle_knob_message takes 2 positional arguments but 4 were given")
  else if PyVal.builtinId ∈ st.button_ids.map PyVal.int ∧
      command = cc.BUTTON_ENGAGED_COMMAND then
    .error (.typeError
      "handle_button_engagement takes 2 positional arguments but 4 were given")
  else if PyVal.builtinId ∈ st.button_ids.map PyVal.int ∧
      command = cc.BUTTON_DISENGAGED_COMMAND then
    .error (.typeError
      "handle_button_disengagement takes 2 positional arguments but 4 were given")
  else
    .error (.valueError "action cannot be found")

/-- The builtin `id` is not an int, so every guard of `handle_midi_message`
is false and the method raises `ValueError` on every input. -/
theorem handle_midi_message_always_error (cc : ControllerConstants)
    (st : ConnectedControllerState) (command channel : Int) (data : List Int) :
    handle_midi_message cc st command channel data =
      .error (.valueError "action cannot be found") := by
  have h1 : PyVal.builtinId ∉ st.knob_ids.map PyVal.int := by simp
  have h2 : PyVal.builtinId ∉ st.button_ids.map PyVal.int := by simp
  unfold handle_midi_message
  rw [if_neg h1, if_neg (fun h => h2 h.1), if_neg (fun h => h2 h.1)]

/-- Test fixture mirroring the TestController of the test-suite, with the
knob range [0, 127] of the knob boundary law. -/
def testController : Controller :=
  ⟨"TestController", 11, 100, 0, 127,
    [⟨0, "Button1"⟩, ⟨1, "Button2"⟩], [⟨2, "Knob1"⟩, ⟨3, "Knob2"⟩]⟩

/-- Test fixture: a connected-controller state for `testController` with knob
2 currently at value 50 and knob 3 at value 0. -/
def testState : ConnectedControllerState :=
  ⟨testController, [0, 1], [2, 3], [(0, 11), (1, 11)], [(2, 50), (3, 0)]⟩

/-- C1 counter-evidence: for knob 2 (stored value 50) of a controller with
knob range [0, 127] and id 2 present in knob_engagement, the messages with
value 0 (the floor), 127 (the ceiling) and 10 (interior) all raise
AttributeError at the dispatch line — `self.action_handler` is accessed but
the declared field is `actions_handler` — so no previous value is ever passed
to any action handler, in none of the three cases of the claim. -/
theorem handle_knob_message_never_passes_previous_value :
    handle_knob_message testState [2, 0] = .error (.attributeError
      "ConnectedController object has no attribute action_handler") ∧
    handle_knob_message testState [2, 127] = .error (.attributeError
      "ConnectedController object has no attribute action_handler") ∧
    handle_knob_message testState [2, 10] = .error (.attributeError
      "ConnectedController object has no attribute action_handler") := by
  decide

/-- C2 counter-evidence: `handle_knob_message` contains no assignment to
`knob_engagement`, and the message [2, 10] raises AttributeError at the
dispatch line before returning; the engagement entry for id 2 is left at 50
and never becomes the message value 10. -/
theorem handle_knob_message_does_not_update :
    handle_knob_message testState [2, 10] = .error (.attributeError
      "ConnectedController object has no attribute action_handler") ∧
    testState.knob_engagement.lookup 2 = some 50 ∧
    ¬ testState.knob_engagement.lookup 2 = some 10 := by decide

/-- C8: `handle_knob_message` reads `knob_engagement[id]` before applying the
boundary corrections, so an element id that is not a key of the dictionary
raises KeyError for every message value, including values equal to
knob_value_min or knob_value_max. -/
theorem handle_knob_message_keyerror_on_unknown_id
    (st : ConnectedControllerState) (id velocity : Int) (rest : List Int)
    (habs : st.knob_engagement.lookup id = none) :
    handle_knob_message st (id :: velocity :: rest) = .error (.keyError id) := by
  simp only [handle_knob_message]
  rw [habs]

/-- Witness for C8: id 9 is not in `testState.knob_engagement`; messages with
the boundary values 0 = knob_value_min and 127 = knob_value_max both raise
KeyError. -/
theorem handle_knob_message_keyerror_on_unknown_id_witness :
    testState.knob_engagement.lookup 9 = none ∧
    handle_knob_message testState [9, 0, 0] = .error (.keyError 9) ∧
    handle_knob_message testState [9, 127, 0] = .error (.keyError 9) :=
  ⟨by decide,
    handle_knob_message_keyerror_on_unknown_id testState 9 0 [0] (by decide),
    handle_knob_message_keyerror_on_unknown_id testState 9 127 [0] (by decide)⟩

/-- C3 counter-evidence: with knob ids {2, 3} and button ids {0, 1}, the
message with the unknown element id 99 makes `handle_midi_message` raise
ValueError instead of reporting a routing error non-fatally; the message with
the known knob id 2 raises exactly the same ValueError, because every guard
tests the Python builtin `id` rather than `data[0]`. -/
theorem handle_midi_message_raises_for_unknown_id :
    handle_midi_message ⟨144, 128⟩ testState 176 0 [99, 5] =
      .error (.valueError "action cannot be found") ∧
    handle_midi_message ⟨144, 128⟩ testState 176 0 [2, 5] =
      .error (.valueError "action cannot be found") := by decide

/-- C4 counter-evidence: for the known button id 1 with the button-engaged
command 144, `handle_midi_message` raises ValueError instead of invoking the
actions handler, and the button-disengaged command 128 on the same known
button id raises the same ValueError instead of being accepted and ignored. -/
theorem handle_midi_message_button_engaged_raises :
    handle_midi_message ⟨144, 128⟩ testState 144 0 [1, 100] =
      .error (.valueError "action cannot be found") ∧
    handle_midi_message ⟨144, 128⟩ testState 128 0 [1, 11] =
      .error (.valueError "action cannot be found") := by decide

/-! ## models/utils.py : YamlBaseModel.save_to / load_from

The YAML text layer and the file system are modelled as faithful transport of
the structured document (`yaml.safe_dump` / `yaml.safe_load`): `save_to`
produces the document written to the file, `load_from` consumes it. -/

/-- Constraint `Field(ge=0, le=127)` of the data model (a MIDI uint7). -/
def uint7 (n : Int) : Prop := 0 ≤ n ∧ n ≤ 127

instance (n : Int) : Decidable (uint7 n) := by
  unfold uint7; infer_instance

/-- Field constraints of `ControllerElement`: id in [0, 127] and a non-empty
name. -/
def ControllerElement.fields_ok (e : ControllerElement) : Prop :=
  uint7 e.id ∧ e.name ≠ ""

instance (e : ControllerElement) : Decidable e.fields_ok := by
  unfold ControllerElement.fields_ok; infer_instance

/-- Embeds construction of a `Controller` pydantic model from
`models/controller.py`: the field constraints, the `check_duplicate_names`
validator on buttons and on knobs, and the root validators
`check_duplicate_ids`, `check_button_values` and `check_knob_values`. -/
def Controller.mk? (name : String)
    (button_value_off button_value_on knob_value_min knob_value_max : Int)
    (buttons knobs : List ControllerElement) : Except String Controller :=
  if name.length < 1 then
    .error "name: ensure this value has at least 1 characters"
  else if ¬ uint7 button_value_off then
    .error "button_value_off: ensure this value is in the range 0..127"
  else if ¬ uint7 button_value_on then
    .error "button_value_on: ensure this value is in the range 0..127"
  else if ¬ uint7 knob_value_min then
    .error "knob_value_min: ensure this value is in the range 0..127"
  else if ¬ uint7 knob_value_max then
    .error "knob_value_max: ensure this value is in the range 0..127"
  else if ¬ (∀ e ∈ buttons, e.fields_ok) then
    .error "buttons: element id out of range or name empty"
  else if ¬ (∀ e ∈ knobs, e.fields_ok) then
    .error "knobs: element id out of range or name empty"
  else match find_duplicate (buttons.map ControllerElement.name) with
  | some _ => .error "name was used for multiple elements"
  | none => match find_duplicate (knobs.map ControllerElement.name) with
  | some _ => .error "name was used for multiple elements"
  | none => match find_duplicate (buttons.map ControllerElement.id) with
  | some _ => .error "id was used for multiple buttons"
  | none => match find_duplicate (knobs.map ControllerElement.id) with
  | some _ => .error "id was used for multiple knobs"
  | none =>
    if button_value_off = button_value_on then
      .error "button_value_off and button_value_on are equal"
    else if knob_value_min ≥ knob_value_max then
      .error "knob_value_min must be smaller than knob_value_max"
    else
      .ok ⟨name, button_value_off, button_value_on, knob_value_min,
        knob_value_max, buttons, knobs⟩

/-- The conditions under which Binds construction succeeds (the conjunction
checked by `Binds.mk?`). -/
def Binds.valid (b : Binds) : Prop :=
  b.name ≠ "" ∧ b.app_name ≠ "" ∧
  (∀ x ∈ b.button_binds, x.id_in_range) ∧
  (∀ k ∈ b.knob_binds, k.id_in_range) ∧
  (b.button_binds.map ButtonBind.button_id ++
    b.knob_binds.map KnobBind.knob_id).Nodup

instance (b : Binds) : Decidable b.valid := by
  unfold Binds.valid; infer_instance

/-- The conditions under which Controller construction succeeds (the
conjunction checked by `Controller.mk?`). -/
def Controller.valid (c : Controller) : Prop :=
  c.name ≠ "" ∧ uint7 c.button_value_off ∧ uint7 c.button_value_on ∧
  uint7 c.knob_value_min ∧ uint7 c.knob_value_max ∧
  (∀ e ∈ c.buttons, e.fields_ok) ∧ (∀ e ∈ c.knobs, e.fields_ok) ∧
  (c.buttons.map ControllerElement.name).Nodup ∧
  (c.knobs.map ControllerElement.name).Nodup ∧
  (c.buttons.map ControllerElement.id).Nodup ∧
  (c.knobs.map ControllerElement.id).Nodup ∧
  c.button_value_off ≠ c.button_value_on ∧
  c.knob_value_min < c.knob_value_max

instance (c : Controller) : Decidable c.valid := by
  unfold Controller.valid; infer_instance

/-- A YAML document as written by `yaml.safe_dump` and read by
`yaml.safe_load`: scalars, sequences and string-keyed mappings (the only
shapes the two models use). -/
inductive Yaml where
  | str (s : String)
  | int (n : Int)
  | null
  | seq (xs : List Yaml)
  | map (kvs : List (String × Yaml))

/-- An `Optional[str]` field serializes to a string or `null`. -/
def optStrYaml : Option String → Yaml
  | none => Yaml.null
  | some s => Yaml.str s

def ButtonBind.save_dict (x : ButtonBind) : Yaml :=
  .map [("button_id", .int x.button_id), ("action_id", .str x.action_id)]

def KnobBind.save_dict (x : KnobBind) : Yaml :=
  .map [("knob_id", .int x.knob_id),
    ("action_id_increase", optStrYaml x.action_id_increase),
    ("action_id_decrease", optStrYaml x.action_id_decrease)]

def ControllerElement.save_dict (e : ControllerElement) : Yaml :=
  .map [("id", .int e.id), ("name", .str e.name)]

/-- Embeds `YamlBaseModel.save_to` for a Binds model: the document written is
`yaml.safe_dump(self.dict())`. -/
def Binds.save_to (b : Binds) : Yaml :=
  .map [("name", .str b.name), ("description", optStrYaml b.description),
    ("app_name", .str b.app_name),
    ("controller_name", .str b.controller_name),
    ("button_binds", .seq (b.button_binds.map ButtonBind.save_dict)),
    ("knob_binds", .seq (b.knob_binds.map KnobBind.save_dict))]

/-- Embeds `YamlBaseModel.save_to` for a Controller model. -/
def Controller.save_to (c : Controller) : Yaml :=
  .map [("name", .str c.name),
    ("button_value_off", .int c.button_value_off),
    ("button_value_on", .int c.button_value_on),
    ("knob_value_min", .int c.knob_value_min),
    ("knob_value_max", .int c.knob_value_max),
    ("buttons", .seq (c.buttons.map ControllerElement.save_dict)),
    ("knobs", .seq (c.knobs.map ControllerElement.save_dict))]

/-- Reads one field of a mapping, as `cls(**data)` does for a keyword. -/
def Yaml.getKey (doc : Yaml) (k : String) : Except String Yaml :=
  match doc with
  | .map kvs =>
    match kvs.lookup k with
    | some v => .ok v
    | none => .error ("field required: " ++ k)
  | _ => .error "value is not a valid dict"

def Yaml.asStr : Yaml → Except String String
  | .str s => .ok s
  | _ => .error "str type expected"

def Yaml.asInt : Yaml → Except String Int
  | .int n => .ok n
  | _ => .error "value is not a valid integer"

def Yaml.asOptStr : Yaml → Except String (Option String)
  | .str s => .ok (some s)
  | .null => .ok none
  | _ => .error "str type expected"

def Yaml.asSeq : Yaml → Except String (List Yaml)
  | .seq xs => .ok xs
  | _ => .error "value is not a valid list"

/-- Parses each element of a YAML sequence, as pydantic validates each item
of a `List[...]` field. -/
def parseListY {α : Type} (g : Yaml → Except String α) :
    List Yaml → Except String (List α)
  | [] => .ok []
  | d :: ds => do
    let x ← g d
    let xs ← parseListY g ds
    return x :: xs

def ButtonBind.parse_dict (doc : Yaml) : Except String ButtonBind := do
  let bid ← (← doc.getKey "button_id").asInt
  let aid ← (← doc.getKey "action_id").asStr
  return ⟨bid, aid⟩

def KnobBind.parse_dict (doc : Yaml) : Except String KnobBind := do
  let kid ← (← doc.getKey "knob_id").asInt
  let inc ← (← doc.getKey "action_id_increase").asOptStr
  let dcr ← (← doc.getKey "action_id_decrease").asOptStr
  return ⟨kid, inc, dcr⟩

def ControllerElement.parse_dict (doc : Yaml) : Except String ControllerElement := do
  let i ← (← doc.getKey "id").asInt
  let n ← (← doc.getKey "name").asStr
  return ⟨i, n⟩

/-- Embeds `YamlBaseModel.load_from` for a Binds model: the document is read
(the assert rejects an empty file, whose document is `null`) and the pydantic
constructor `Binds(**data)` runs every validator of `Binds.mk?`. -/
def Binds.load_from (doc : Yaml) : Except String Binds :=
  match doc with
  | .null => .error "Empty file"
  | doc => do
    let n ← (← doc.getKey "name").asStr
    let d ← (← doc.getKey "description").asOptStr
    let a ← (← doc.getKey "app_name").asStr
    let c ← (← doc.getKey "controller_name").asStr
    let bs ← (← doc.getKey "button_binds").asSeq
    let ks ← (← doc.getKey "knob_binds").asSeq
    let bbs ← parseListY ButtonBind.parse_dict bs
    let kbs ← parseListY KnobBind.parse_dict ks
    Binds.mk? n d a c bbs kbs

/-- Embeds `YamlBaseModel.load_from` for a Controller model. -/
def Controller.load_from (doc : Yaml) : Except String Controller :=
  match doc with
  | .null => .error "Empty file"
  | doc => do
    let n ← (← doc.getKey "name").asStr
    let boff ← (← doc.getKey "button_value_off").asInt
    let bon ← (← doc.getKey "button_value_on").asInt
    let kmin ← (← doc.getKey "knob_value_min").asInt
    let kmax ← (← doc.getKey "knob_value_max").asInt
    let bs ← (← doc.getKey "buttons").asSeq
    let ks ← (← doc.getKey "knobs").asSeq
    let buttons ← parseListY ControllerElement.parse_dict bs
    let knobs ← parseListY ControllerElement.parse_dict ks
    Controller.mk? n boff bon kmin kmax buttons knobs

theorem except_bind_ok {ε α β : Type} (a : α) (k : α → Except ε β) :
    (Except.ok a : Except ε α) >>= k = k a := rfl

theorem yaml_asOptStr_optStrYaml (o : Option String) :
    (optStrYaml o).asOptStr = .ok o := by
  cases o <;> rfl

theorem buttonBind_parse_save (x : ButtonBind) :
    ButtonBind.parse_dict x.save_dict = .ok x := rfl

theorem knobBind_parse_save (x : KnobBind) :
    KnobBind.parse_dict x.save_dict = .ok x := by
  cases x with
  | mk kid inc dcr => cases inc <;> cases dcr <;> rfl

theorem controllerElement_parse_save (e : ControllerElement) :
    ControllerElement.parse_dict e.save_dict = .ok e := rfl

theorem parseListY_save {α : Type} (f : α → Yaml) (g : Yaml → Except String α)
    (hfg : ∀ x, g (f x) = .ok x) (l : List α) :
    parseListY g (l.map f) = .ok l := by
  induction l with
  | nil => rfl
  | cons x xs ih =>
    simp only [List.map_cons, parseListY, hfg x, ih]
    rfl

theorem binds_mk?_of_valid (b : Binds) (h : b.valid) :
    Binds.mk? b.name b.description b.app_name b.controller_name
      b.button_binds b.knob_binds = .ok b := by
  obtain ⟨hn, ha, hb, hk, hnd⟩ := h
  have h1 : ¬ b.name.length < 1 := fun hlt =>
    hn ((string_length_eq_zero_iff b.name).mp (Nat.lt_one_iff.mp hlt))
  have h2 : ¬ b.app_name.length < 1 := fun hlt =>
    ha ((string_length_eq_zero_iff b.app_name).mp (Nat.lt_one_iff.mp hlt))
  have h5 : Binds.check_duplicate_ids b.button_binds b.knob_binds = none := by
    rw [Binds.check_duplicate_ids, find_duplicate_eq_none_iff]; exact hnd
  rw [Binds.mk?, if_neg h1, if_neg h2, if_neg (not_not.mpr hb),
    if_neg (not_not.mpr hk), h5]

theorem controller_mk?_of_valid (c : Controller) (h : c.valid) :
    Controller.mk? c.name c.button_value_off c.button_value_on
      c.knob_value_min c.knob_value_max c.buttons c.knobs = .ok c := by
  obtain ⟨hn, h1, h2, h3, h4, hbf, hkf, hbn, hkn, hbi, hki, hoff, hlt⟩ := h
  have hn1 : ¬ c.name.length < 1 := fun hl =>
    hn ((string_length_eq_zero_iff c.name).mp (Nat.lt_one_iff.mp hl))
  have d1 : find_duplicate (c.buttons.map ControllerElement.name) = none :=
    (find_duplicate_eq_none_iff _).mpr hbn
  have d2 : find_duplicate (c.knobs.map ControllerElement.name) = none :=
    (find_duplicate_eq_none_iff _).mpr hkn
  have d3 : find_duplicate (c.buttons.map ControllerElement.id) = none :=
    (find_duplicate_eq_none_iff _).mpr hbi
  have d4 : find_duplicate (c.knobs.map ControllerElement.id) = none :=
    (find_duplicate_eq_none_iff _).mpr hki
  have hge : ¬ c.knob_value_min ≥ c.knob_value_max := not_le.mpr hlt
  rw [Controller.mk?, if_neg hn1, if_neg (not_not.mpr h1),
    if_neg (not_not.mpr h2), if_neg (not_not.mpr h3), if_neg (not_not.mpr h4),
    if_neg (not_not.mpr hbf), if_neg (not_not.mpr hkf), d1, d2, d3, d4,
    if_neg hoff, if_neg hge]

theorem binds_load_save (b : Binds) (h : b.valid) :
    Binds.load_from (Binds.save_to b) = .ok b := by
  have hpb : parseListY ButtonBind.parse_dict
      (b.button_binds.map ButtonBind.save_dict) = .ok b.button_binds :=
    parseListY_save _ _ buttonBind_parse_save _
  have hpk : parseListY KnobBind.parse_dict
      (b.knob_binds.map KnobBind.save_dict) = .ok b.knob_binds :=
    parseListY_save _ _ knobBind_parse_save _
  simp [Binds.load_from, Binds.save_to, Yaml.getKey, List.lookup, Yaml.asStr,
    Yaml.asInt, Yaml.asSeq, except_bind_ok, yaml_asOptStr_optStrYaml,
    hpb, hpk]
  exact binds_mk?_of_valid b h

theorem controller_load_save (c : Controller) (h : c.valid) :
    Controller.load_from (Controller.save_to c) = .ok c := by
  have hpb : parseListY ControllerElement.parse_dict
      (c.buttons.map ControllerElement.save_dict) = .ok c.buttons :=
    parseListY_save _ _ controllerElement_parse_save _
  have hpk : parseListY ControllerElement.parse_dict
      (c.knobs.map ControllerElement.save_dict) = .ok c.knobs :=
    parseListY_save _ _ controllerElement_parse_save _
  simp [Controller.load_from, Controller.save_to, Yaml.getKey, List.lookup,
    Yaml.asStr, Yaml.asOptStr, Yaml.asInt, Yaml.asSeq, except_bind_ok,
    hpb, hpk]
  exact controller_mk?_of_valid c h

/-- Test fixture mirroring the TestBinds of the test-suite. -/
def testBinds : Binds :=
  ⟨"TestBinds", some "Test description", "TestApp", "TestController",
    [⟨1, "Action1"⟩], [⟨2, some "incr", some "decr"⟩]⟩

/-- C7: saving a valid model of the data model (a Controller or a Binds) and
reloading the written document yields the original model: serialization is
lossless. The YAML text layer and the file system are modelled as faithful
transport of the structured document. -/
theorem save_load_roundtrip (c : Controller) (b : Binds)
    (hc : c.valid) (hb : b.valid) :
    Controller.load_from (Controller.save_to c) = .ok c ∧
    Binds.load_from (Binds.save_to b) = .ok b :=
  ⟨controller_load_save c hc, binds_load_save b hb⟩

/-- Witness for C7 at the TestController and TestBinds fixtures. -/
theorem save_load_roundtrip_witness :
    (testController.valid ∧ testBinds.valid) ∧
    Controller.load_from (Controller.save_to testController) =
      .ok testController ∧
    Binds.load_from (Binds.save_to testBinds) = .ok testBinds :=
  ⟨⟨by decide, by decide⟩,
    save_load_roundtrip testController testBinds (by decide) (by decide)⟩

/-! ## models/utils.py : YamlBaseModel.save_copy_to -/

/-- Embeds a `pathlib.Path` to a file: directory part, stem and suffix;
`name` is stem ++ suffix; `with_stem` replaces the stem keeping directory and
suffix. The file system is embedded as the list of the paths that exist. -/
structure PyPath where
  dir : String
  stem : String
  suffix : String
deriving DecidableEq, Repr

def PyPath.with_stem (p : PyPath) (s : String) : PyPath :=
  { p with stem := s }

/-- Embeds the `while new_path.exists():` loop of `save_copy_to`: while the
candidate path exists in the file system, the stem is extended with a space
and the next uuid (`new_path.with_stem(f"[stem] [uuid1()]")`). The Python
loop carries no fuel; the fuel argument here only bounds the recursion depth,
and `save_copy_to_loop_some` shows that `fs.length + 1` steps always reach a
fresh path, so the bound is never hit. -/
def save_copy_to_loop (fs : List PyPath) (uuids : Nat → String) :
    Nat → Nat → PyPath → Option PyPath
  | 0, _, _ => none
  | fuel + 1, k, p =>
    if p ∈ fs then
      save_copy_to_loop fs uuids fuel (k + 1)
        (p.with_stem (p.stem ++ " " ++ uuids k))
    else
      some p

/-- Embeds `YamlBaseModel.save_copy_to(path, new_dir)`: the first candidate
is `new_dir / path.name`, the collision loop runs, then `save_to` writes the
file — the file system gains the chosen path — and the chosen path is
returned. The readonly-directory assertion of `save_to` concerns the Config
directories, which are outside the modelled file-system state. `uuid.uuid1()`
results are the stream `uuids`. -/
def save_copy_to (fs : List PyPath) (uuids : Nat → String)
    (path : PyPath) (new_dir : String) : Option (PyPath × List PyPath) :=
  match save_copy_to_loop fs uuids (fs.length + 1) 0
      ⟨new_dir, path.stem, path.suffix⟩ with
  | some p => some (p, p :: fs)
  | none => none

theorem save_copy_to_loop_some (fs : List PyPath) (uuids : Nat → String) :
    ∀ fuel k p,
      (fs.filter (fun q => p.stem.length ≤ q.stem.length)).length < fuel →
      ∃ r, save_copy_to_loop fs uuids fuel k p = some r ∧ r ∉ fs ∧
        r.dir = p.dir ∧ r.suffix = p.suffix := by
  intro fuel
  induction fuel with
  | zero =>
    intro k p h
    exact absurd h (Nat.not_lt_zero _)
  | succ n ih =>
    intro k p h
    by_cases hp : p ∈ fs
    · rw [save_copy_to_loop, if_pos hp]
      have hlen : p.stem.length <
          (p.with_stem (p.stem ++ " " ++ uuids k)).stem.length := by
        show p.stem.length < (p.stem ++ " " ++ uuids k).length
        rw [String.length_append, String.length_append]
        have hsp : 0 < (" " : String).length := by decide
        omega
      have hsub : List.Sublist
          (fs.filter (fun q =>
            (p.with_stem (p.stem ++ " " ++ uuids k)).stem.length ≤
              q.stem.length))
          (fs.filter (fun q => p.stem.length ≤ q.stem.length)) := by
        refine List.monotone_filter_right fs (fun a ha => ?_)
        have h1 := of_decide_eq_true ha
        exact decide_eq_true (le_trans (le_of_lt hlen) h1)
      have hmem : p ∈ fs.filter (fun q => p.stem.length ≤ q.stem.length) :=
        List.mem_filter.mpr ⟨hp, decide_eq_true (le_refl _)⟩
      have hnotmem : p ∉ fs.filter (fun q =>
          (p.with_stem (p.stem ++ " " ++ uuids k)).stem.length ≤
            q.stem.length) := by
        intro hin
        have h2 := of_decide_eq_true (List.mem_filter.mp hin).2
        exact absurd h2 (not_le.mpr hlen)
      have hlt : (fs.filter (fun q =>
          (p.with_stem (p.stem ++ " " ++ uuids k)).stem.length ≤
            q.stem.length)).length <
          (fs.filter (fun q => p.stem.length ≤ q.stem.length)).length := by
        refine lt_of_le_of_ne hsub.length_le (fun heq => ?_)
        rw [hsub.eq_of_length heq] at hnotmem
        exact hnotmem hmem
      obtain ⟨r, hr, hnotin, hdir, hsuf⟩ :=
        ih (k + 1) (p.with_stem (p.stem ++ " " ++ uuids k))
          (Nat.lt_of_lt_of_le hlt (Nat.lt_succ_iff.mp h))
      exact ⟨r, hr, hnotin, hdir, hsuf⟩
    · rw [save_copy_to_loop, if_neg hp]
      exact ⟨p, rfl, hp, rfl, rfl⟩

/-- C9: for every file system, uuid stream, source path and directory,
save_copy_to writes to a path in the given directory that did not exist
before the call — while the candidate file name exists it extends the stem
with the next uuid — so it never overwrites an existing file, and it returns
exactly the path it wrote to (which keeps the original suffix). -/
theorem save_copy_to_fresh (fs : List PyPath) (uuids : Nat → String)
    (path : PyPath) (new_dir : String) :
    ∃ r, save_copy_to fs uuids path new_dir = some (r, r :: fs) ∧
      r ∉ fs ∧ r.dir = new_dir ∧ r.suffix = path.suffix := by
  obtain ⟨r, hr, hnotin, hdir, hsuf⟩ :=
    save_copy_to_loop_some fs uuids (fs.length + 1) 0
      ⟨new_dir, path.stem, path.suffix⟩
      (Nat.lt_succ_of_le (List.length_filter_le _ _))
  exact ⟨r, by rw [save_copy_to, hr], hnotin, hdir, hsuf⟩

end MidiApp
